import Mathlib

/-!
Verification of the seccomp filter compiler (`libcontainer/seccomp/seccomp_linux.go`)
and the process variants (`libcontainer/restored_process.go`) of the runc repository.

The compiler is embedded as a pure function from a seccomp configuration and an
environment (the answers of the libseccomp library and the kernel: reported API
level, architecture and syscall name resolution, success of each external call)
to a result consisting of

  * the ordered trace of operations requested on the libseccomp filter,
  * the ordered list of debug log messages emitted,
  * an outcome: success, an error return, or a runtime panic (the Go code
    dereferences a possibly nil syscall pointer in its notify-validation loop).
-/

namespace Runc

/-- Action of `libcontainer/configs` as used by the seccomp compiler.  The
`other` constructor stands for any value outside the named constants, which the
`getAction` switch sends to its default branch. -/
inductive Action where
  | kill
  | killThread
  | killProcess
  | errno
  | trap
  | allow
  | trace
  | log
  | notify
  | other (n : Nat)
  deriving DecidableEq, Repr

/-- Comparison operator of `libcontainer/configs`; `otherOp` stands for any
value outside the named constants. -/
inductive Operator where
  | equalTo
  | notEqualTo
  | greaterThan
  | greaterThanOrEqualTo
  | lessThan
  | lessThanOrEqualTo
  | maskEqualTo
  | otherOp (n : Nat)
  deriving DecidableEq, Repr

/-- libseccomp comparison operator. -/
inductive ScmpCompareOp where
  | compareEqual
  | compareNotEqual
  | compareGreater
  | compareGreaterEqual
  | compareLess
  | compareLessOrEqual
  | compareMaskedEqual
  deriving DecidableEq, Repr

/-- libseccomp action, carrying the attached return code where the Go code sets
one (`SetReturnCode` on errno and trace actions). -/
inductive ScmpAction where
  | actKillThread
  | actKillProcess
  | actTrap
  | actAllow
  | actLog
  | actNotify
  | actInvalid
  | actErrno (rc : Int)
  | actTrace (rc : Int)
  deriving DecidableEq, Repr

/-- Truncation of a machine integer to int16, as in the Go conversion
`int16(x)` applied to an unsigned value. -/
def int16OfNat (n : Nat) : Int :=
  let m := n % 65536
  if m < 32768 then (m : Int) else (m : Int) - 65536

/-- unix.EPERM -/
def EPERM : Nat := 1

/-- The package-level variable `actTrace` (line 21): trace action with EPERM
return code. -/
def actTraceEperm : ScmpAction := ScmpAction.actTrace (int16OfNat EPERM)

/-- The package-level variable `actErrno` (line 22): errno action with EPERM
return code. -/
def actErrnoEperm : ScmpAction := ScmpAction.actErrno (int16OfNat EPERM)

/-- An argument predicate of a syscall rule (`configs.Arg`). -/
structure Arg where
  index : Nat
  op : Operator
  value : Nat
  valueTwo : Nat
  deriving DecidableEq, Repr

/-- A syscall rule (`configs.Syscall`).  `args` holds possibly nil pointers to
argument predicates, as in the Go slice `[]*Arg`. -/
structure Syscall where
  name : String
  action : Action
  errnoRet : Option Nat
  args : List (Option Arg)
  deriving DecidableEq, Repr

/-- The seccomp policy (`configs.Seccomp`) restricted to the fields the
compiler reads.  `syscalls` holds possibly nil pointers, as in `[]*Syscall`. -/
structure SeccompConfig where
  defaultAction : Action
  defaultErrnoRet : Option Nat
  architectures : List String
  flags : List String
  syscalls : List (Option Syscall)
  deriving DecidableEq, Repr

/-- A libseccomp rule condition (`ScmpCondition`). -/
structure ScmpCondition where
  argNr : Nat
  operator : ScmpCompareOp
  operand1 : Nat
  operand2 : Nat
  deriving DecidableEq, Repr

/-- One operation requested on the libseccomp filter or the kernel. -/
inductive FilterOp where
  | newFilter (defaultAction : ScmpAction)
  | addArch (arch : Nat)
  | setLogBit (b : Bool)
  | setSSB (b : Bool)
  | setOptimize (level : Nat)
  | setNoNewPrivsBit (b : Bool)
  | addRule (syscallNum : Nat) (act : ScmpAction)
  | addRuleConditional (syscallNum : Nat) (act : ScmpAction) (conds : List ScmpCondition)
  | load
  deriving DecidableEq, Repr

/-- True exactly for the operations that add a rule to the filter. -/
def FilterOp.isRuleOp : FilterOp → Bool
  | .addRule _ _ => true
  | .addRuleConditional _ _ _ => true
  | _ => false

/-- True exactly for the operations that set a filter flag attribute
(performed by `setFlag`). -/
def FilterOp.isFlagOp : FilterOp → Bool
  | .setLogBit _ => true
  | .setSSB _ => true
  | _ => false

/-- Environment: answers of libseccomp and the kernel to the external calls
made by the compiler.  Each `...Ok` field tells whether the corresponding
external call succeeds. -/
structure SeccompEnv where
  apiLevel : Nat
  archFromString : String → Option Nat
  syscallFromName : String → Option Nat
  newFilterOk : Bool
  addArchOk : Nat → Bool
  setLogOk : Bool
  setSSBOk : Bool
  setOptimizeOk : Bool
  setNoNewPrivsOk : Bool
  addRuleOk : Bool
  patchAndLoadOk : Bool

/-- Abnormal termination of a compilation step: an error return or a Go
runtime panic. -/
inductive Failure where
  | err (msg : String)
  | panicked
  deriving DecidableEq, Repr

/-- Outcome of a whole compilation run. -/
inductive Outcome where
  | ok
  | err (msg : String)
  | panicked
  deriving DecidableEq, Repr

def Failure.toOutcome : Failure → Outcome
  | .err m => .err m
  | .panicked => .panicked

/-- Output of one compilation step: operations requested so far, log messages
emitted so far, and an optional abnormal termination. -/
structure Phase where
  ops : List FilterOp
  logs : List String
  fail : Option Failure
  deriving DecidableEq, Repr

/-- Sequential composition of steps: the second step runs only when the first
did not terminate abnormally, mirroring the early returns of the Go code. -/
def Phase.seq (p q : Phase) : Phase :=
  match p.fail with
  | some _ => p
  | none => ⟨p.ops ++ q.ops, p.logs ++ q.logs, q.fail⟩

/-- Final result of a compilation run. -/
structure SecResult where
  ops : List FilterOp
  logs : List String
  outcome : Outcome
  deriving DecidableEq, Repr

def Phase.toResult (p : Phase) : SecResult :=
  ⟨p.ops, p.logs, match p.fail with
    | none => .ok
    | some f => f.toOutcome⟩

/-- Translation of `getAction` (lines 196 to 223): convert a libcontainer
action and optional errno return value to a libseccomp action. -/
def getAction (act : Action) (errnoRet : Option Nat) : Except String ScmpAction :=
  match act with
  | .kill | .killThread => .ok .actKillThread
  | .errno =>
    match errnoRet with
    | some r => .ok (.actErrno (int16OfNat r))
    | none => .ok actErrnoEperm
  | .trap => .ok .actTrap
  | .allow => .ok .actAllow
  | .trace =>
    match errnoRet with
    | some r => .ok (.actTrace (int16OfNat r))
    | none => .ok actTraceEperm
  | .log => .ok .actLog
  | .notify => .ok .actNotify
  | .killProcess => .ok .actKillProcess
  | .other _ => .error "invalid action, cannot use in rule"

/-- Translation of `getOperator` (lines 226 to 245). -/
def getOperator (op : Operator) : Except String ScmpCompareOp :=
  match op with
  | .equalTo => .ok .compareEqual
  | .notEqualTo => .ok .compareNotEqual
  | .greaterThan => .ok .compareGreater
  | .greaterThanOrEqualTo => .ok .compareGreaterEqual
  | .lessThan => .ok .compareLess
  | .lessThanOrEqualTo => .ok .compareLessOrEqual
  | .maskEqualTo => .ok .compareMaskedEqual
  | .otherOp _ => .error "invalid operator, cannot use in rule"

/-- Modelled from the libseccomp-golang dependency (not part of this
repository): `MakeCondition` rejects an argument index above 5 and otherwise
builds the condition record.  The invalid-comparison check of the library is
unreachable here because `getOperator` already rejected invalid operators. -/
def makeCondition (arg : Nat) (cmp : ScmpCompareOp) (v1 v2 : Nat) :
    Except String ScmpCondition :=
  if arg > 5 then .error "condition argument count was not valid"
  else .ok ⟨arg, cmp, v1, v2⟩

/-- Translation of `getCondition` (lines 248 to 261). -/
def getCondition (arg : Option Arg) : Except String ScmpCondition :=
  match arg with
  | none => .error "cannot convert nil to syscall condition"
  | some a =>
    match getOperator a.op with
    | .error e => .error e
    | .ok op => makeCondition a.index op a.value a.valueTwo

/-- The error message of the seccomp API level check (line 48). -/
def apiLevelErr (d : Nat) : String :=
  "seccomp notify unsupported: API level: got " ++ toString d ++
    ", want at least 6. Please try with libseccomp >= 2.5.0 and Linux >= 5.7"

/-- Translation of the notify-validation loop of `InitSeccomp` (lines 45 to
67).  Each entry of the Go slice is a pointer; the loop reads `call.Action`
without a nil check, so a nil entry is a nil-pointer dereference, modelled as
a panic. -/
def notifyCheck (apiLevel : Nat) : List (Option Syscall) → Option Failure
  | [] => none
  | none :: _ => some .panicked
  | some call :: rest =>
    if call.action = Action.notify then
      if apiLevel < 6 then
        some (.err (apiLevelErr apiLevel))
      else if call.name = "write" then
        some (.err "SCMP_ACT_NOTIFY cannot be used for the write syscall")
      else notifyCheck apiLevel rest
    else notifyCheck apiLevel rest

/-- Creation of the filter (lines 74 to 77). -/
def newFilterPhase (newFilterOk : Bool) (d : ScmpAction) : Phase :=
  if newFilterOk then ⟨[.newFilter d], [], none⟩
  else ⟨[.newFilter d], [], some (.err "error creating filter")⟩

/-- The architecture loop (lines 80 to 88): resolve each architecture string
and add it to the filter, stopping at the first failure. -/
def archPhase (archFromString : String → Option Nat) (addArchOk : Nat → Bool) :
    List String → Phase
  | [] => ⟨[], [], none⟩
  | a :: rest =>
    match archFromString a with
    | none => ⟨[], [], some (.err ("error validating Seccomp architecture: " ++ a))⟩
    | some n =>
      if addArchOk n then
        Phase.seq ⟨[.addArch n], [], none⟩ (archPhase archFromString addArchOk rest)
      else ⟨[.addArch n], [], some (.err "error adding architecture to seccomp filter")⟩

/-- The flag string constants: `flagTsync` from the configs package, the other
two from the runtime-spec package. -/
def flagTsync : String := "SECCOMP_FILTER_FLAG_TSYNC"

def linuxSeccompFlagLog : String := "SECCOMP_FILTER_FLAG_LOG"

def linuxSeccompFlagSpecAllow : String := "SECCOMP_FILTER_FLAG_SPEC_ALLOW"

/-- The message of `unknownFlagError` (lines 134 to 140). -/
def unknownFlagMsg (flag : String) : String :=
  "seccomp flag " ++ flag ++ " is not known to runc"

/-- Translation of `setFlag` (lines 142 to 169). -/
def setFlagPhase (setLogOk setSSBOk : Bool) (flag : String) : Phase :=
  if flag = flagTsync then ⟨[], [], none⟩
  else if flag = linuxSeccompFlagLog then
    if setLogOk then ⟨[.setLogBit true], [], none⟩
    else ⟨[.setLogBit true], [], some (.err "error adding log flag to seccomp filter")⟩
  else if flag = linuxSeccompFlagSpecAllow then
    if setSSBOk then ⟨[.setSSB true], [], none⟩
    else ⟨[.setSSB true], [], some (.err "error adding SSB flag to seccomp filter")⟩
  else ⟨[], [], some (.err (unknownFlagMsg flag))⟩

/-- Whether a flag string is one of the three flags known to `setFlag`. -/
def knownFlag (flag : String) : Bool :=
  flag = flagTsync || flag = linuxSeccompFlagLog || flag = linuxSeccompFlagSpecAllow

/-- The flag loop of `InitSeccomp` (lines 90 to 95). -/
def flagsPhase (setLogOk setSSBOk : Bool) : List String → Phase
  | [] => ⟨[], [], none⟩
  | f :: rest => Phase.seq (setFlagPhase setLogOk setSSBOk f) (flagsPhase setLogOk setSSBOk rest)

/-- The debug message logged when binary tree optimization is unavailable. -/
def optUnavailableMsg : String := "seccomp binary tree optimization not available"

/-- The binary tree optimization step (lines 97 to 109): requested only when
the rule count exceeds 32; a failure of `SetOptimize` is logged and is not
fatal. -/
def optimizePhase (setOptimizeOk : Bool) (ruleCount : Nat) : Phase :=
  if ruleCount > 32 then
    if setOptimizeOk then ⟨[.setOptimize 2], [], none⟩
    else ⟨[.setOptimize 2], [optUnavailableMsg], none⟩
  else ⟨[], [], none⟩

/-- Unsetting the no-new-privs bit on the filter (lines 111 to 114). -/
def noNewPrivsPhase (setNoNewPrivsOk : Bool) : Phase :=
  if setNoNewPrivsOk then ⟨[.setNoNewPrivsBit false], [], none⟩
  else ⟨[.setNoNewPrivsBit false], [], some (.err "error setting no new privileges")⟩

/-- The initial `argCounts` array of `matchCall` (line 300): one counter per
syscall argument, `syscallMaxArguments = 6`. -/
def initialArgCounts : List Nat := [0, 0, 0, 0, 0, 0]

/-- One increment `argCounts[i] += 1`. -/
def bumpCount (counts : List Nat) (i : Nat) : List Nat :=
  counts.set i (counts.getD i 0 + 1)

/-- The condition-collection loop of `matchCall` (lines 303 to 312): convert
every argument predicate, counting how many predicates target each argument
index.  A nil predicate makes `getCondition` fail. -/
def collectConds : List (Option Arg) → List Nat →
    Except String (List ScmpCondition × List Nat)
  | [], counts => .ok ([], counts)
  | none :: _, _ => .error "cannot convert nil to syscall condition"
  | some arg :: rest, counts =>
    match getCondition (some arg) with
    | .error e => .error e
    | .ok c =>
      match collectConds rest (bumpCount counts arg.index) with
      | .error e => .error e
      | .ok (cs, countsOut) => .ok (c :: cs, countsOut)

/-- The duplicate-index test of `matchCall` (lines 314 to 320). -/
def hasMultipleArgs (counts : List Nat) : Bool :=
  counts.any (fun c => c > 1)

/-- The per-condition rule loop of `matchCall` (lines 322 to 331): each
condition attached to a separate rule. -/
def addEachRule (addRuleOk : Bool) (num : Nat) (act : ScmpAction) (name : String) :
    List ScmpCondition → Phase
  | [] => ⟨[], [], none⟩
  | c :: rest =>
    if addRuleOk then
      Phase.seq ⟨[.addRuleConditional num act [c]], [], none⟩
        (addEachRule addRuleOk num act name rest)
    else ⟨[.addRuleConditional num act [c]], [],
      some (.err ("error adding seccomp rule for syscall " ++ name))⟩

/-- Translation of `matchCall` (lines 264 to 342): add the rules for a single
syscall entry to the filter.  `filterNil` models a nil filter pointer. -/
def matchCall (syscallFromName : String → Option Nat) (addRuleOk : Bool)
    (filterNil : Bool) (call : Option Syscall) (defAct : ScmpAction) : Phase :=
  match call with
  | none => ⟨[], [], some (.err "cannot use nil as syscall to block")⟩
  | some call =>
    if filterNil then ⟨[], [], some (.err "cannot use nil as syscall to block")⟩
    else if call.name.length = 0 then
      ⟨[], [], some (.err "empty string is not a valid syscall")⟩
    else
      match getAction call.action call.errnoRet with
      | .error e => ⟨[], [], some (.err ("action in seccomp profile is invalid: " ++ e))⟩
      | .ok callAct =>
        if callAct = defAct then
          ⟨[], [], none⟩
        else
          match syscallFromName call.name with
          | none => ⟨[], ["unknown seccomp syscall " ++ call.name ++ " ignored"], none⟩
          | some callNum =>
            if call.args.isEmpty then
              if addRuleOk then ⟨[.addRule callNum callAct], [], none⟩
              else ⟨[.addRule callNum callAct], [],
                some (.err ("error adding seccomp filter rule for syscall " ++ call.name))⟩
            else
              match collectConds call.args initialArgCounts with
              | .error e => ⟨[], [], some (.err
                  ("error creating seccomp syscall condition for syscall " ++
                    call.name ++ ": " ++ e))⟩
              | .ok (conditions, argCounts) =>
                if hasMultipleArgs argCounts then
                  addEachRule addRuleOk callNum callAct call.name conditions
                else
                  if addRuleOk then
                    ⟨[.addRuleConditional callNum callAct conditions], [], none⟩
                  else ⟨[.addRuleConditional callNum callAct conditions], [],
                    some (.err ("error adding seccomp rule for syscall " ++ call.name))⟩

/-- The rule loop of `InitSeccomp` (lines 117 to 125): a nil entry is an
error here, each non-nil entry goes through `matchCall`. -/
def rulesPhase (syscallFromName : String → Option Nat) (addRuleOk : Bool)
    (defAct : ScmpAction) : List (Option Syscall) → Phase
  | [] => ⟨[], [], none⟩
  | none :: _ => ⟨[], [], some (.err "encountered nil syscall while initializing Seccomp")⟩
  | some call :: rest =>
    Phase.seq (matchCall syscallFromName addRuleOk false (some call) defAct)
      (rulesPhase syscallFromName addRuleOk defAct rest)

/-- The final `patchbpf.PatchAndLoad` call (lines 127 to 130). -/
def loadPhase (patchAndLoadOk : Bool) : Phase :=
  if patchAndLoadOk then ⟨[.load], [], none⟩
  else ⟨[.load], [], some (.err "error loading seccomp filter into kernel")⟩

/-- The filter-construction part of `InitSeccomp` (lines 74 to 131), after the
validation checks passed: filter creation, architectures, flags, optimization,
no-new-privs, rules, load — in source order. -/
def compileBody (env : SeccompEnv) (cfg : SeccompConfig) (defaultAction : ScmpAction) :
    Phase :=
  Phase.seq (newFilterPhase env.newFilterOk defaultAction)
  (Phase.seq (archPhase env.archFromString env.addArchOk cfg.architectures)
  (Phase.seq (flagsPhase env.setLogOk env.setSSBOk cfg.flags)
  (Phase.seq (optimizePhase env.setOptimizeOk cfg.syscalls.length)
  (Phase.seq (noNewPrivsPhase env.setNoNewPrivsOk)
  (Phase.seq (rulesPhase env.syscallFromName env.addRuleOk defaultAction cfg.syscalls)
             (loadPhase env.patchAndLoadOk))))))

/-- Translation of `InitSeccomp` (lines 33 to 132): validate the policy, then
create the filter and perform the filter operations in source order. -/
def initSeccomp (env : SeccompEnv) (config : Option SeccompConfig) : SecResult :=
  match config with
  | none => ⟨[], [], .err "cannot initialize Seccomp - nil config passed"⟩
  | some cfg =>
    match getAction cfg.defaultAction cfg.defaultErrnoRet with
    | .error _ => ⟨[], [], .err "error initializing seccomp - invalid default action"⟩
    | .ok defaultAction =>
      match notifyCheck env.apiLevel cfg.syscalls with
      | some f => ⟨[], [], f.toOutcome⟩
      | none =>
        if defaultAction = ScmpAction.actNotify then
          ⟨[], [], .err "SCMP_ACT_NOTIFY cannot be used as default action"⟩
        else
          Phase.toResult (compileBody env cfg defaultAction)

/-- The compilation relation: the compiler, run on a policy in a fixed
environment, produces a given result. -/
def Compiles (env : SeccompEnv) (config : Option SeccompConfig) (r : SecResult) : Prop :=
  initSeccomp env config = r

/-!
Process variants of `libcontainer/restored_process.go`.  Operating-system
effects (finding a process, delivering a signal) are answered by a `ProcEnv`;
a `none` answer means the call succeeded, a `some` answer carries the error.
-/

/-- Answers of the operating system to the process operations. -/
structure ProcEnv where
  findProcessErr : Int → Option String
  signalErr : Int → Nat → Option String

/-- A process adopted from CRIU restore (`restoredProcess`, lines 25 to 29):
the pid of the restore command, the recorded start time, the external
descriptor strings. -/
structure restoredProcess where
  cmdPid : Int
  processStartTime : Nat
  fds : List String
  deriving DecidableEq, Repr

/-- Lines 31 to 33: a restored process can never be started. -/
def restoredProcess.start (_p : restoredProcess) : Except String Unit :=
  .error "restored process cannot be started"

/-- Lines 35 to 37. -/
def restoredProcess.pid (p : restoredProcess) : Int :=
  p.cmdPid

/-- Lines 61 to 63. -/
def restoredProcess.startTime (p : restoredProcess) : Except String Nat :=
  .ok p.processStartTime

/-- Lines 65 to 67: delegate the signal to the stored command process. -/
def restoredProcess.signal (env : ProcEnv) (p : restoredProcess) (s : Nat) :
    Except String Unit :=
  match env.signalErr p.cmdPid s with
  | some e => .error e
  | none => .ok ()

/-- Lines 69 to 71. -/
def restoredProcess.externalDescriptors (p : restoredProcess) : List String :=
  p.fds

/-- Lines 73 to 75. -/
def restoredProcess.setExternalDescriptors (p : restoredProcess)
    (newFds : List String) : restoredProcess :=
  { p with fds := newFds }

/-- A process the runtime did not parent (`nonChildProcess`, lines 84 to
88). -/
structure nonChildProcess where
  processPid : Int
  processStartTime : Nat
  fds : List String
  deriving DecidableEq, Repr

/-- Lines 90 to 92. -/
def nonChildProcess.start (_p : nonChildProcess) : Except String Unit :=
  .error "restored process cannot be started"

/-- Lines 94 to 96. -/
def nonChildProcess.pid (p : nonChildProcess) : Int :=
  p.processPid

/-- Lines 98 to 100. -/
def nonChildProcess.terminate (_p : nonChildProcess) : Except String Unit :=
  .error "restored process cannot be terminated"

/-- Lines 102 to 104. -/
def nonChildProcess.wait (_p : nonChildProcess) : Except String Unit :=
  .error "restored process cannot be waited on"

/-- Lines 106 to 108. -/
def nonChildProcess.startTime (p : nonChildProcess) : Except String Nat :=
  .ok p.processStartTime

/-- Lines 110 to 116: find the process by pid, then deliver the signal. -/
def nonChildProcess.signal (env : ProcEnv) (p : nonChildProcess) (s : Nat) :
    Except String Unit :=
  match env.findProcessErr p.processPid with
  | some e => .error e
  | none =>
    match env.signalErr p.processPid s with
    | some e => .error e
    | none => .ok ()

/-- Lines 118 to 120. -/
def nonChildProcess.externalDescriptors (p : nonChildProcess) : List String :=
  p.fds

/-- Lines 122 to 124. -/
def nonChildProcess.setExternalDescriptors (p : nonChildProcess)
    (newFds : List String) : nonChildProcess :=
  { p with fds := newFds }

/-- An operating system in which the process operations all succeed. -/
def okProcEnv : ProcEnv :=
  ⟨fun _ => none, fun _ _ => none⟩

/-!
Concrete test data used by counterexamples and witnesses.
-/

/-- A concrete syscall-number table: a small fragment of the x86-64 table. -/
def testSyscallTable (s : String) : Option Nat :=
  if s = "read" then some 0
  else if s = "write" then some 1
  else if s = "getpid" then some 39
  else if s = "personality" then some 135
  else none

/-- A concrete architecture table. -/
def testArchTable (s : String) : Option Nat :=
  if s = "amd64" then some 0
  else if s = "x86" then some 1
  else none

/-- A concrete environment: seccomp API level 6, the tables above, every
external call succeeding. -/
def testEnv : SeccompEnv :=
  ⟨6, testArchTable, testSyscallTable, true, fun _ => true,
    true, true, true, true, true, true⟩

/-- A concrete environment reporting seccomp API level 0. -/
def testEnvApi0 : SeccompEnv :=
  ⟨0, testArchTable, testSyscallTable, true, fun _ => true,
    true, true, true, true, true, true⟩

/-!
Further concrete policies used by counterexamples and witnesses.
-/

/-- A rule sending getpid to the errno action (EPERM return code). -/
def getpidErrno : Syscall := ⟨"getpid", .errno, none, []⟩

/-- A one-rule policy with default allow. -/
def cfgSimple : SeccompConfig := ⟨.allow, none, [], [], [some getpidErrno]⟩

/-- A rule with argument conditions on indices 0, 0, 1, 2: index 0 repeats
while indices 1 and 2 are distinct (the mixed case). -/
def mixedArgsCall : Syscall :=
  ⟨"getpid", .allow, none,
    [some ⟨0, .equalTo, 11, 0⟩, some ⟨0, .equalTo, 12, 0⟩,
     some ⟨1, .equalTo, 13, 0⟩, some ⟨2, .equalTo, 14, 0⟩]⟩

/-- A rule with argument conditions on the distinct indices 0 and 1. -/
def distinctArgsCall : Syscall :=
  ⟨"getpid", .allow, none,
    [some ⟨0, .equalTo, 11, 0⟩, some ⟨1, .equalTo, 13, 0⟩]⟩

/-- A notify rule against the write syscall. -/
def writeNotify : Syscall := ⟨"write", .notify, none, []⟩

/-- A notify rule against getpid. -/
def notifyGetpid : Syscall := ⟨"getpid", .notify, none, []⟩

/-- A policy whose syscall list holds a nil entry followed by a notify rule
against write. -/
def nilThenWriteNotifyCfg : SeccompConfig :=
  ⟨.allow, none, [], [], [none, some writeNotify]⟩

/-- A policy whose syscall list holds a single nil entry. -/
def nilEntryCfg : SeccompConfig := ⟨.allow, none, [], [], [none]⟩

/-- A 33-rule policy naming an architecture the library cannot resolve. -/
def cfg33badArch : SeccompConfig :=
  ⟨.allow, none, ["bogusarch"], [], List.replicate 33 (some getpidErrno)⟩

/-- A well-formed 33-rule policy. -/
def cfg33ok : SeccompConfig :=
  ⟨.allow, none, [], [], List.replicate 33 (some getpidErrno)⟩

/-- A well-formed policy with a log flag followed by an unrecognized flag. -/
def cfgUnknownFlag : SeccompConfig :=
  ⟨.allow, none, [], [linuxSeccompFlagLog, "bogus_flag"], [some getpidErrno]⟩

/-- A policy with an unrecognized flag and an invalid default action. -/
def cfgUnknownFlagBadDefault : SeccompConfig :=
  ⟨.other 7, none, [], ["bogus_flag"], []⟩

/-!
Lemmas about the step combinator and the shapes of the operations each
compilation phase emits.
-/

theorem Phase.seq_fail_none {p q : Phase} (h : p.fail = none) :
    p.seq q = ⟨p.ops ++ q.ops, p.logs ++ q.logs, q.fail⟩ := by
  simp [Phase.seq, h]

theorem Phase.seq_fail_some {p q : Phase} {f : Failure} (h : p.fail = some f) :
    p.seq q = p := by
  simp [Phase.seq, h]

theorem Phase.mem_seq_ops {op : FilterOp} {p q : Phase} :
    op ∈ (p.seq q).ops ↔ op ∈ p.ops ∨ (p.fail = none ∧ op ∈ q.ops) := by
  cases hf : p.fail <;> simp [Phase.seq, hf]

theorem Phase.mem_seq_logs {m : String} {p q : Phase} :
    m ∈ (p.seq q).logs ↔ m ∈ p.logs ∨ (p.fail = none ∧ m ∈ q.logs) := by
  cases hf : p.fail <;> simp [Phase.seq, hf]

theorem Phase.seq_fail_eq {p q : Phase} :
    (p.seq q).fail = match p.fail with
      | some f => some f
      | none => q.fail := by
  cases hf : p.fail <;> simp [Phase.seq, hf]

theorem Phase.seq_assoc (p q r : Phase) :
    (p.seq q).seq r = p.seq (q.seq r) := by
  cases hp : p.fail with
  | some f =>
    rw [Phase.seq_fail_some hp, Phase.seq_fail_some hp, Phase.seq_fail_some hp]
  | none =>
    cases hq : q.fail with
    | some g =>
      rw [Phase.seq_fail_none hp, Phase.seq_fail_some hq]
      have : (Phase.mk (p.ops ++ q.ops) (p.logs ++ q.logs) q.fail).fail = some g := hq
      rw [Phase.seq_fail_some this, Phase.seq_fail_none hp]
    | none =>
      rw [Phase.seq_fail_none hq, Phase.seq_fail_none hp]
      have hpq : (Phase.mk (p.ops ++ q.ops) (p.logs ++ q.logs) q.fail).fail = none := hq
      rw [Phase.seq_fail_none hpq, Phase.seq_fail_none hp]
      simp

theorem archPhase_ops_shape (f : String → Option Nat) (g : Nat → Bool) :
    ∀ (l : List String), ∀ op ∈ (archPhase f g l).ops, ∃ n, op = FilterOp.addArch n := by
  intro l
  induction l with
  | nil => intro op h; simp [archPhase] at h
  | cons a rest ih =>
    intro op h
    cases hfa : f a with
    | none => simp [archPhase, hfa] at h
    | some n =>
      by_cases hg : g n
      · simp only [archPhase, hfa, hg, if_true] at h
        rcases Phase.mem_seq_ops.mp h with h | ⟨-, h⟩
        · simp at h; exact ⟨n, h⟩
        · exact ih op h
      · simp [archPhase, hfa, hg] at h
        exact ⟨n, h⟩

theorem setFlagPhase_ops_shape (b1 b2 : Bool) (fl : String) :
    ∀ op ∈ (setFlagPhase b1 b2 fl).ops, op.isFlagOp = true := by
  intro op h
  simp only [setFlagPhase] at h
  split at h
  · simp at h
  · split at h
    · split at h <;> (simp at h; subst h; rfl)
    · split at h
      · split at h <;> (simp at h; subst h; rfl)
      · simp at h

theorem flagsPhase_ops_shape (b1 b2 : Bool) :
    ∀ (l : List String), ∀ op ∈ (flagsPhase b1 b2 l).ops, op.isFlagOp = true := by
  intro l
  induction l with
  | nil => intro op h; simp [flagsPhase] at h
  | cons fl rest ih =>
    intro op h
    rcases Phase.mem_seq_ops.mp h with h | ⟨-, h⟩
    · exact setFlagPhase_ops_shape b1 b2 fl op h
    · exact ih op h

theorem optimizePhase_fail (b : Bool) (n : Nat) : (optimizePhase b n).fail = none := by
  by_cases h : n > 32 <;> cases b <;> simp [optimizePhase, h]

theorem optimizePhase_ops (b : Bool) (n : Nat) :
    (optimizePhase b n).ops = if n > 32 then [FilterOp.setOptimize 2] else [] := by
  by_cases h : n > 32 <;> cases b <;> simp [optimizePhase, h]

theorem addEachRule_ops_shape (b : Bool) (num : Nat) (act : ScmpAction) (name : String) :
    ∀ (l : List ScmpCondition), ∀ op ∈ (addEachRule b num act name l).ops,
      op.isRuleOp = true := by
  intro l
  induction l with
  | nil => intro op h; simp [addEachRule] at h
  | cons c rest ih =>
    intro op h
    cases b with
    | false =>
      simp [addEachRule] at h
      simp [h, FilterOp.isRuleOp]
    | true =>
      simp only [addEachRule, if_true] at h
      rcases Phase.mem_seq_ops.mp h with h | ⟨-, h⟩
      · simp at h; simp [h, FilterOp.isRuleOp]
      · exact ih op h

theorem matchCall_ops_shape (sfn : String → Option Nat) (aro fn : Bool)
    (call : Option Syscall) (defAct : ScmpAction) :
    ∀ op ∈ (matchCall sfn aro fn call defAct).ops, op.isRuleOp = true := by
  intro op h
  match call with
  | none => simp [matchCall] at h
  | some call =>
    by_cases hfn : fn
    · simp [matchCall, hfn] at h
    · by_cases hname : call.name.length = 0
      · simp [matchCall, hfn, hname] at h
      · cases hact : getAction call.action call.errnoRet with
        | error e => simp [matchCall, hfn, hname, hact] at h
        | ok callAct =>
          by_cases heq : callAct = defAct
          · simp [matchCall, hfn, hname, hact, heq] at h
          · cases hnum : sfn call.name with
            | none => simp [matchCall, hfn, hname, hact, heq, hnum] at h
            | some callNum =>
              by_cases hargs : call.args.isEmpty
              · cases aro <;>
                  simp [matchCall, hfn, hname, hact, heq, hnum, hargs] at h <;>
                  simp [h, FilterOp.isRuleOp]
              · cases hcc : collectConds call.args initialArgCounts with
                | error e =>
                  simp [matchCall, hfn, hname, hact, heq, hnum, hargs, hcc] at h
                | ok pair =>
                  obtain ⟨conditions, argCounts⟩ := pair
                  by_cases hma : hasMultipleArgs argCounts
                  · simp [matchCall, hfn, hname, hact, heq, hnum, hargs, hcc, hma] at h
                    exact addEachRule_ops_shape aro callNum callAct call.name conditions op h
                  · cases aro <;>
                      simp [matchCall, hfn, hname, hact, heq, hnum, hargs, hcc, hma] at h <;>
                      simp [h, FilterOp.isRuleOp]

theorem rulesPhase_ops_shape (sfn : String → Option Nat) (aro : Bool)
    (defAct : ScmpAction) :
    ∀ (l : List (Option Syscall)), ∀ op ∈ (rulesPhase sfn aro defAct l).ops,
      op.isRuleOp = true := by
  intro l
  induction l with
  | nil => intro op h; simp [rulesPhase] at h
  | cons c rest ih =>
    intro op h
    match c with
    | none => simp [rulesPhase] at h
    | some call =>
      simp only [rulesPhase] at h
      rcases Phase.mem_seq_ops.mp h with h | ⟨-, h⟩
      · exact matchCall_ops_shape sfn aro false (some call) defAct op h
      · exact ih op h

/-!
Elementary facts about the individual phases and the result projections.
-/

theorem newFilterPhase_ops (b : Bool) (d : ScmpAction) :
    (newFilterPhase b d).ops = [FilterOp.newFilter d] := by
  cases b <;> rfl

theorem noNewPrivsPhase_ops (b : Bool) :
    (noNewPrivsPhase b).ops = [FilterOp.setNoNewPrivsBit false] := by
  cases b <;> rfl

theorem loadPhase_ops (b : Bool) : (loadPhase b).ops = [FilterOp.load] := by
  cases b <;> rfl

theorem Phase.toResult_ops (p : Phase) : p.toResult.ops = p.ops := rfl

theorem Phase.toResult_logs (p : Phase) : p.toResult.logs = p.logs := rfl

theorem Phase.toResult_outcome_congr {p q : Phase} (h : p.fail = q.fail) :
    p.toResult.outcome = q.toResult.outcome := by
  simp [Phase.toResult, h]

theorem Phase.toResult_outcome_ok {p : Phase} :
    p.toResult.outcome = Outcome.ok ↔ p.fail = none := by
  cases hf : p.fail with
  | none => simp [Phase.toResult, hf]
  | some f => cases f <;> simp [Phase.toResult, hf, Failure.toOutcome]

theorem Phase.seq_congr_ops_fail {p p' q q' : Phase}
    (hpo : p.ops = p'.ops) (hpf : p.fail = p'.fail)
    (hqo : q.ops = q'.ops) (hqf : q.fail = q'.fail) :
    (p.seq q).ops = (p'.seq q').ops ∧ (p.seq q).fail = (p'.seq q').fail := by
  cases hf : p.fail with
  | some f =>
    have hf' : p'.fail = some f := by rw [← hpf]; exact hf
    rw [Phase.seq_fail_some hf, Phase.seq_fail_some hf']
    exact ⟨hpo, hpf⟩
  | none =>
    have hf' : p'.fail = none := by rw [← hpf]; exact hf
    rw [Phase.seq_fail_none hf, Phase.seq_fail_none hf']
    exact ⟨by rw [hpo, hqo], hqf⟩

theorem FilterOp.flagOp_not_ruleOp {op : FilterOp} (h : op.isFlagOp = true) :
    op.isRuleOp = false := by
  cases op <;> simp [FilterOp.isFlagOp, FilterOp.isRuleOp] at h ⊢

theorem FilterOp.ruleOp_not_flagOp {op : FilterOp} (h : op.isRuleOp = true) :
    op.isFlagOp = false := by
  cases op <;> simp [FilterOp.isFlagOp, FilterOp.isRuleOp] at h ⊢

/-!
Structural lemmas about the compilation body, used for the optimization
boundary and flag-ordering claims.
-/

theorem compileBody_setOptimize_mem (env : SeccompEnv) (c : SeccompConfig)
    (d : ScmpAction)
    (h : FilterOp.setOptimize 2 ∈ (compileBody env c d).ops) :
    c.syscalls.length > 32 := by
  rcases Phase.mem_seq_ops.mp h with h | ⟨-, h⟩
  · rw [newFilterPhase_ops] at h; simp at h
  rcases Phase.mem_seq_ops.mp h with h | ⟨-, h⟩
  · obtain ⟨n, hn⟩ := archPhase_ops_shape _ _ _ _ h; simp at hn
  rcases Phase.mem_seq_ops.mp h with h | ⟨-, h⟩
  · have := flagsPhase_ops_shape _ _ _ _ h; simp [FilterOp.isFlagOp] at this
  rcases Phase.mem_seq_ops.mp h with h | ⟨-, h⟩
  · rw [optimizePhase_ops] at h
    by_cases hlen : c.syscalls.length > 32
    · exact hlen
    · simp [hlen] at h
  rcases Phase.mem_seq_ops.mp h with h | ⟨-, h⟩
  · rw [noNewPrivsPhase_ops] at h; simp at h
  rcases Phase.mem_seq_ops.mp h with h | ⟨-, h⟩
  · have := rulesPhase_ops_shape _ _ _ _ _ h; simp [FilterOp.isRuleOp] at this
  · rw [loadPhase_ops] at h; simp at h

theorem compileBody_nnp_prefix_ok (env : SeccompEnv) (c : SeccompConfig)
    (d : ScmpAction)
    (h : FilterOp.setNoNewPrivsBit false ∈ (compileBody env c d).ops) :
    (newFilterPhase env.newFilterOk d).fail = none ∧
    (archPhase env.archFromString env.addArchOk c.architectures).fail = none ∧
    (flagsPhase env.setLogOk env.setSSBOk c.flags).fail = none := by
  rcases Phase.mem_seq_ops.mp h with h | ⟨hf1, h⟩
  · rw [newFilterPhase_ops] at h; simp at h
  rcases Phase.mem_seq_ops.mp h with h | ⟨hf2, h⟩
  · obtain ⟨n, hn⟩ := archPhase_ops_shape _ _ _ _ h; simp at hn
  rcases Phase.mem_seq_ops.mp h with h | ⟨hf3, h⟩
  · have := flagsPhase_ops_shape _ _ _ _ h; simp [FilterOp.isFlagOp] at this
  exact ⟨hf1, hf2, hf3⟩

theorem compileBody_optimize_mem (env : SeccompEnv) (c : SeccompConfig)
    (d : ScmpAction)
    (hf1 : (newFilterPhase env.newFilterOk d).fail = none)
    (hf2 : (archPhase env.archFromString env.addArchOk c.architectures).fail = none)
    (hf3 : (flagsPhase env.setLogOk env.setSSBOk c.flags).fail = none)
    (hlen : c.syscalls.length > 32) :
    FilterOp.setOptimize 2 ∈ (compileBody env c d).ops := by
  apply Phase.mem_seq_ops.mpr
  refine Or.inr ⟨hf1, ?_⟩
  apply Phase.mem_seq_ops.mpr
  refine Or.inr ⟨hf2, ?_⟩
  apply Phase.mem_seq_ops.mpr
  refine Or.inr ⟨hf3, ?_⟩
  apply Phase.mem_seq_ops.mpr
  refine Or.inl ?_
  rw [optimizePhase_ops]
  simp [hlen]

theorem compileBody_optimize_log (env : SeccompEnv) (c : SeccompConfig)
    (d : ScmpAction)
    (hb : env.setOptimizeOk = false)
    (hf1 : (newFilterPhase env.newFilterOk d).fail = none)
    (hf2 : (archPhase env.archFromString env.addArchOk c.architectures).fail = none)
    (hf3 : (flagsPhase env.setLogOk env.setSSBOk c.flags).fail = none)
    (hlen : c.syscalls.length > 32) :
    optUnavailableMsg ∈ (compileBody env c d).logs := by
  apply Phase.mem_seq_logs.mpr
  refine Or.inr ⟨hf1, ?_⟩
  apply Phase.mem_seq_logs.mpr
  refine Or.inr ⟨hf2, ?_⟩
  apply Phase.mem_seq_logs.mpr
  refine Or.inr ⟨hf3, ?_⟩
  apply Phase.mem_seq_logs.mpr
  refine Or.inl ?_
  rw [hb]
  simp [optimizePhase, hlen]

theorem compileBody_congr_setOptimizeOk (env : SeccompEnv) (b : Bool)
    (c : SeccompConfig) (d : ScmpAction) :
    (compileBody { env with setOptimizeOk := b } c d).ops =
      (compileBody env c d).ops ∧
    (compileBody { env with setOptimizeOk := b } c d).fail =
      (compileBody env c d).fail := by
  have h4o : (optimizePhase b c.syscalls.length).ops =
      (optimizePhase env.setOptimizeOk c.syscalls.length).ops := by
    rw [optimizePhase_ops, optimizePhase_ops]
  have h4f : (optimizePhase b c.syscalls.length).fail =
      (optimizePhase env.setOptimizeOk c.syscalls.length).fail := by
    rw [optimizePhase_fail, optimizePhase_fail]
  have h4c := Phase.seq_congr_ops_fail h4o h4f
    (q := Phase.seq (noNewPrivsPhase env.setNoNewPrivsOk)
      (Phase.seq (rulesPhase env.syscallFromName env.addRuleOk d c.syscalls)
        (loadPhase env.patchAndLoadOk)))
    rfl rfl
  have h3c := Phase.seq_congr_ops_fail
    (p := flagsPhase env.setLogOk env.setSSBOk c.flags) rfl rfl h4c.1 h4c.2
  have h2c := Phase.seq_congr_ops_fail
    (p := archPhase env.archFromString env.addArchOk c.architectures) rfl rfl h3c.1 h3c.2
  have h1c := Phase.seq_congr_ops_fail
    (p := newFilterPhase env.newFilterOk d) rfl rfl h2c.1 h2c.2
  exact h1c

/-!
C9.  Process variants: operations unavailable to a variant return a precise
error instead of panicking, the record and its accessors stay usable.
-/

/-- C9: for every restored process, start returns an error; for every
non-child process, start, terminate and wait each return an error, while pid,
startTime, signal and the descriptor accessors remain usable (signal succeeds
whenever the operating system finds the process and delivers the signal). -/
theorem process_variants_precise_errors :
    (∀ p : restoredProcess,
      p.start = Except.error "restored process cannot be started") ∧
    (∀ q : nonChildProcess,
      q.start = Except.error "restored process cannot be started" ∧
      q.terminate = Except.error "restored process cannot be terminated" ∧
      q.wait = Except.error "restored process cannot be waited on" ∧
      q.pid = q.processPid ∧
      q.startTime = Except.ok q.processStartTime ∧
      (∀ s, q.signal okProcEnv s = Except.ok ()) ∧
      q.externalDescriptors = q.fds ∧
      (∀ newFds, (q.setExternalDescriptors newFds).externalDescriptors = newFds)) := by
  exact ⟨fun p => rfl,
    fun q => ⟨rfl, rfl, rfl, rfl, rfl, fun s => rfl, rfl, fun newFds => rfl⟩⟩

/-!
C7.  Deterministic compilation: the compilation relation is functional.
-/

/-- C7: compilation is deterministic: a policy compiled twice in the same
environment yields the same trace of filter operations, the same logs, and
the same outcome. -/
theorem seccomp_compilation_deterministic (env : SeccompEnv)
    (P : Option SeccompConfig) (r₁ r₂ : SecResult)
    (h₁ : Compiles env P r₁) (h₂ : Compiles env P r₂) : r₁ = r₂ := by
  rw [Compiles] at h₁ h₂
  rw [← h₁, ← h₂]

/-- Witness for C7 at a concrete policy: both runs produce this explicit
result. -/
theorem seccomp_compilation_deterministic_witness :
    initSeccomp testEnv (some cfgSimple) =
      ⟨[FilterOp.newFilter ScmpAction.actAllow, FilterOp.setNoNewPrivsBit false,
        FilterOp.addRule 39 (ScmpAction.actErrno 1), FilterOp.load], [], Outcome.ok⟩ :=
  seccomp_compilation_deterministic testEnv (some cfgSimple)
    (initSeccomp testEnv (some cfgSimple))
    ⟨[FilterOp.newFilter ScmpAction.actAllow, FilterOp.setNoNewPrivsBit false,
      FilterOp.addRule 39 (ScmpAction.actErrno 1), FilterOp.load], [], Outcome.ok⟩
    rfl rfl

/-!
C3.  A rule whose resolved action equals the resolved default action is
silently dropped.  The claim as stated fails on a rule with an empty name:
the empty-name check precedes the action comparison and returns an error.
-/

/-- Counterexample to C3 as stated: a rule with empty name whose action
resolves to the default action still makes matchCall return an error. -/
theorem matchCall_empty_name_equal_action_errors :
    getAction Action.allow none = Except.ok ScmpAction.actAllow ∧
    matchCall testSyscallTable true false (some ⟨"", Action.allow, none, []⟩)
      ScmpAction.actAllow =
      ⟨[], [], some (.err "empty string is not a valid syscall")⟩ :=
  ⟨rfl, rfl⟩

/-- C3 (amended): a non-nil rule with non-empty name whose resolved action
equals the resolved default action is silently dropped: matchCall adds no
rule, emits no log and returns no error. -/
theorem matchCall_drops_rule_matching_default (sfn : String → Option Nat)
    (aro : Bool) (call : Syscall) (defAct a : ScmpAction)
    (hname : call.name.length ≠ 0)
    (hact : getAction call.action call.errnoRet = .ok a)
    (heq : a = defAct) :
    matchCall sfn aro false (some call) defAct = ⟨[], [], none⟩ := by
  subst heq
  simp [matchCall, hname, hact]

/-- Witness for C3 at a concrete rule. -/
theorem matchCall_drops_rule_matching_default_witness :
    matchCall testSyscallTable true false (some ⟨"getpid", Action.allow, none, []⟩)
      ScmpAction.actAllow = ⟨[], [], none⟩ :=
  matchCall_drops_rule_matching_default testSyscallTable true
    ⟨"getpid", Action.allow, none, []⟩ ScmpAction.actAllow ScmpAction.actAllow
    (by decide) rfl rfl

/-!
C4.  A rule whose syscall name the kernel cannot resolve is dropped with a
debug log and no error.  The claim as stated fails when the rule action also
equals the default action: the rule is then dropped earlier, without a log.
-/

/-- Counterexample to C4 as stated: an unresolvable rule whose action equals
the default is dropped without emitting any debug log. -/
theorem matchCall_unknown_name_equal_action_no_log :
    testSyscallTable "bogus" = none ∧
    matchCall testSyscallTable true false (some ⟨"bogus", Action.allow, none, []⟩)
      ScmpAction.actAllow = ⟨[], [], none⟩ :=
  ⟨rfl, rfl⟩

/-- C4 (amended): a rule whose resolved action differs from the resolved
default and whose syscall name cannot be resolved is dropped: matchCall emits
one debug log, adds no rule and returns no error, and the rule loop continues
with the remaining rules unchanged. -/
theorem matchCall_unknown_name_dropped (sfn : String → Option Nat) (aro : Bool)
    (call : Syscall) (defAct a : ScmpAction)
    (hname : call.name.length ≠ 0)
    (hact : getAction call.action call.errnoRet = .ok a)
    (hne : a ≠ defAct)
    (hnum : sfn call.name = none) :
    matchCall sfn aro false (some call) defAct =
      ⟨[], ["unknown seccomp syscall " ++ call.name ++ " ignored"], none⟩ ∧
    ∀ rest, rulesPhase sfn aro defAct (some call :: rest) =
      ⟨(rulesPhase sfn aro defAct rest).ops,
       ("unknown seccomp syscall " ++ call.name ++ " ignored") ::
         (rulesPhase sfn aro defAct rest).logs,
       (rulesPhase sfn aro defAct rest).fail⟩ := by
  have hmc : matchCall sfn aro false (some call) defAct =
      ⟨[], ["unknown seccomp syscall " ++ call.name ++ " ignored"], none⟩ := by
    simp [matchCall, hname, hact, hne, hnum]
  refine ⟨hmc, fun rest => ?_⟩
  rw [rulesPhase, hmc, Phase.seq_fail_none rfl]
  simp

/-- Witness for C4 at a concrete rule and rule-list tail. -/
theorem matchCall_unknown_name_dropped_witness :
    matchCall testSyscallTable true false
      (some ⟨"bogus", Action.allow, none, []⟩) ScmpAction.actKillThread =
      ⟨[], ["unknown seccomp syscall bogus ignored"], none⟩ :=
  (matchCall_unknown_name_dropped testSyscallTable true
    ⟨"bogus", Action.allow, none, []⟩ ScmpAction.actKillThread ScmpAction.actAllow
    (by decide) rfl (by decide) rfl).1

/-!
C10.  Input validation at the public interface.  Nil config, invalid default
action, nil syscall in matchCall and empty syscall name all return precise
errors; but a nil entry in the syscall list makes InitSeccomp panic (nil
pointer dereference in the notify-validation loop at line 46) before the nil
check at line 118 can run, instead of returning an error.
-/

/-- C10: evaluation at the failing input: a policy whose syscall list holds a
nil entry makes InitSeccomp panic rather than return an error, while the
other validation paths return their errors as claimed. -/
theorem initSeccomp_nil_entry_panics :
    initSeccomp testEnv (some nilEntryCfg) = ⟨[], [], Outcome.panicked⟩ ∧
    initSeccomp testEnv none =
      ⟨[], [], Outcome.err "cannot initialize Seccomp - nil config passed"⟩ ∧
    initSeccomp testEnv (some ⟨Action.other 42, none, [], [], []⟩) =
      ⟨[], [], Outcome.err "error initializing seccomp - invalid default action"⟩ ∧
    matchCall testSyscallTable true false none ScmpAction.actAllow =
      ⟨[], [], some (.err "cannot use nil as syscall to block")⟩ ∧
    matchCall testSyscallTable true false (some ⟨"", Action.errno, none, []⟩)
      ScmpAction.actAllow =
      ⟨[], [], some (.err "empty string is not a valid syscall")⟩ := by
  exact ⟨rfl, rfl, rfl, rfl, rfl⟩

/-!
C2.  Argument-condition rule shapes.  The code splits EVERY condition into
its own rule as soon as any argument index repeats; the claim that
distinct-index conditions stay combined in the mixed case is false.
-/

theorem addEachRule_true_eq (num : Nat) (a : ScmpAction) (name : String) :
    ∀ conds : List ScmpCondition,
      addEachRule true num a name conds =
        ⟨conds.map (fun c => FilterOp.addRuleConditional num a [c]), [], none⟩ := by
  intro conds
  induction conds with
  | nil => rfl
  | cons c rest ih => simp [addEachRule, ih, Phase.seq]

/-- Counterexample to C2 as stated: in the mixed case (indices 0, 0, 1, 2)
every condition is added as its own separate rule; no rule combining the
distinct-index conditions exists in the trace. -/
theorem matchCall_mixed_case_splits_every_condition :
    matchCall testSyscallTable true false (some mixedArgsCall) ScmpAction.actKillThread =
      ⟨[FilterOp.addRuleConditional 39 ScmpAction.actAllow [⟨0, .compareEqual, 11, 0⟩],
        FilterOp.addRuleConditional 39 ScmpAction.actAllow [⟨0, .compareEqual, 12, 0⟩],
        FilterOp.addRuleConditional 39 ScmpAction.actAllow [⟨1, .compareEqual, 13, 0⟩],
        FilterOp.addRuleConditional 39 ScmpAction.actAllow [⟨2, .compareEqual, 14, 0⟩]],
       [], none⟩ ∧
    FilterOp.addRuleConditional 39 ScmpAction.actAllow
        [⟨1, .compareEqual, 13, 0⟩, ⟨2, .compareEqual, 14, 0⟩] ∉
      (matchCall testSyscallTable true false (some mixedArgsCall)
        ScmpAction.actKillThread).ops := by
  exact ⟨rfl, by decide⟩

/-- C2 (amended): for a rule with a non-empty argument-condition list that
converts successfully, when some argument index is referenced by two or more
conditions, EVERY condition (also those on distinct indices) is added as its
own separate rule; when all conditions reference distinct indices, all of
them are added together on one rule. -/
theorem matchCall_arg_condition_rules (sfn : String → Option Nat) (call : Syscall)
    (defAct a : ScmpAction) (num : Nat) (conds : List ScmpCondition) (counts : List Nat)
    (hname : call.name.length ≠ 0)
    (hact : getAction call.action call.errnoRet = .ok a)
    (hne : a ≠ defAct)
    (hnum : sfn call.name = some num)
    (hargs : call.args ≠ [])
    (hcc : collectConds call.args initialArgCounts = .ok (conds, counts)) :
    matchCall sfn true false (some call) defAct =
      if hasMultipleArgs counts then
        ⟨conds.map (fun c => FilterOp.addRuleConditional num a [c]), [], none⟩
      else
        ⟨[FilterOp.addRuleConditional num a conds], [], none⟩ := by
  have hargsE : call.args.isEmpty = false := by
    cases h : call.args with
    | nil => exact absurd h hargs
    | cons x xs => rfl
  by_cases hma : hasMultipleArgs counts
  · simp [matchCall, hname, hact, hne, hnum, hargsE, hcc, hma, addEachRule_true_eq]
  · simp [matchCall, hname, hact, hne, hnum, hargsE, hcc, hma]

/-- Witness for C2 at a concrete rule with all-distinct argument indices. -/
theorem matchCall_arg_condition_rules_witness :
    matchCall testSyscallTable true false (some distinctArgsCall) ScmpAction.actKillThread =
      ⟨[FilterOp.addRuleConditional 39 ScmpAction.actAllow
          [⟨0, .compareEqual, 11, 0⟩, ⟨1, .compareEqual, 13, 0⟩]], [], none⟩ := by
  have h := matchCall_arg_condition_rules testSyscallTable distinctArgsCall
    ScmpAction.actKillThread ScmpAction.actAllow 39
    [⟨0, .compareEqual, 11, 0⟩, ⟨1, .compareEqual, 13, 0⟩] [1, 1, 0, 0, 0, 0]
    (by decide) rfl (by decide) rfl (by decide) rfl
  simpa using h

/-!
Lemmas about the notify-validation loop.
-/

theorem notifyCheck_no_nil_not_panicked (api : Nat) :
    ∀ l : List (Option Syscall), (∀ s ∈ l, s ≠ none) →
      notifyCheck api l ≠ some Failure.panicked := by
  intro l
  induction l with
  | nil => intro _ h; simp [notifyCheck] at h
  | cons c rest ih =>
    intro hs h
    match c with
    | none => exact (hs none (List.mem_cons_self _ _)) rfl
    | some call =>
      by_cases hA : call.action = Action.notify
      · by_cases h6 : api < 6
        · simp [notifyCheck, hA, h6] at h
        · by_cases hw : call.name = "write"
          · simp [notifyCheck, hA, h6, hw] at h
          · simp only [notifyCheck, hA, h6, hw, if_true, if_false] at h
            exact ih (fun s hm => hs s (List.mem_cons_of_mem _ hm)) (by simpa using h)
      · simp only [notifyCheck, hA, if_false] at h
        exact ih (fun s hm => hs s (List.mem_cons_of_mem _ hm)) (by simpa [hA] using h)

theorem notifyCheck_low_api (api : Nat) (h6 : api < 6) :
    ∀ l : List (Option Syscall), (∀ s ∈ l, s ≠ none) →
      (∃ sc : Syscall, some sc ∈ l ∧ sc.action = Action.notify) →
      notifyCheck api l = some (.err (apiLevelErr api)) := by
  intro l
  induction l with
  | nil =>
    rintro _ ⟨sc, hm, _⟩
    simp at hm
  | cons c rest ih =>
    rintro hs ⟨sc, hm, hA⟩
    match c with
    | none => exact absurd rfl (hs none (List.mem_cons_self _ _))
    | some call =>
      by_cases hcA : call.action = Action.notify
      · simp [notifyCheck, hcA, h6]
      · rcases List.mem_cons.mp hm with hh | hh
        · have hsc : sc = call := by injection hh
          rw [hsc] at hA
          exact absurd hA hcA
        · have := ih (fun s hm2 => hs s (List.mem_cons_of_mem _ hm2)) ⟨sc, hh, hA⟩
          simp [notifyCheck, hcA, this]

theorem notifyCheck_write_notify (api : Nat) :
    ∀ l : List (Option Syscall), (∀ s ∈ l, s ≠ none) →
      (∃ sc : Syscall, some sc ∈ l ∧ sc.action = Action.notify ∧ sc.name = "write") →
      ∃ m, notifyCheck api l = some (.err m) := by
  intro l
  induction l with
  | nil =>
    rintro _ ⟨sc, hm, _⟩
    simp at hm
  | cons c rest ih =>
    rintro hs ⟨sc, hm, hA, hw⟩
    match c with
    | none => exact absurd rfl (hs none (List.mem_cons_self _ _))
    | some call =>
      by_cases hcA : call.action = Action.notify
      · by_cases h6 : api < 6
        · exact ⟨apiLevelErr api, by simp [notifyCheck, hcA, h6]⟩
        · by_cases hcw : call.name = "write"
          · exact ⟨"SCMP_ACT_NOTIFY cannot be used for the write syscall",
              by simp [notifyCheck, hcA, h6, hcw]⟩
          · rcases List.mem_cons.mp hm with hh | hh
            · have hsc : sc = call := by injection hh
              rw [hsc] at hw
              exact absurd hw hcw
            · obtain ⟨m, hmm⟩ :=
                ih (fun s hm2 => hs s (List.mem_cons_of_mem _ hm2)) ⟨sc, hh, hA, hw⟩
              exact ⟨m, by simp [notifyCheck, hcA, h6, hcw, hmm]⟩
      · rcases List.mem_cons.mp hm with hh | hh
        · have hsc : sc = call := by injection hh
          rw [hsc] at hA
          exact absurd hA hcA
        · obtain ⟨m, hmm⟩ :=
            ih (fun s hm2 => hs s (List.mem_cons_of_mem _ hm2)) ⟨sc, hh, hA, hw⟩
          exact ⟨m, by simp [notifyCheck, hcA, hmm]⟩

/-!
C1.  Rejection of notify against write and of notify as default action.
The claim as stated fails when a nil syscall entry precedes the offending
rule: the notify-validation loop panics before returning any error.
-/

/-- Counterexample to C1 as stated: a policy with a nil entry before its
write-notify rule makes InitSeccomp panic (outcome `panicked`, not an error
return) with an empty operation trace. -/
theorem initSeccomp_nil_masks_write_notify_rejection :
    (initSeccomp testEnv (some nilThenWriteNotifyCfg)).outcome = Outcome.panicked ∧
    (initSeccomp testEnv (some nilThenWriteNotifyCfg)).ops = [] :=
  ⟨rfl, rfl⟩

/-- C1 (amended): for every policy whose syscall list holds no nil entry, if
some rule with action notify names the write syscall, or the default action
is notify, then InitSeccomp returns an error with an empty operation trace:
no filter is created and nothing is loaded into the kernel. -/
theorem initSeccomp_rejects_notify_misuse (env : SeccompEnv) (c : SeccompConfig)
    (hsome : ∀ s ∈ c.syscalls, s ≠ none)
    (h : (∃ sc : Syscall, some sc ∈ c.syscalls ∧ sc.action = Action.notify ∧
            sc.name = "write")
         ∨ c.defaultAction = Action.notify) :
    ∃ msg, initSeccomp env (some c) = ⟨[], [], Outcome.err msg⟩ := by
  cases hga : getAction c.defaultAction c.defaultErrnoRet with
  | error e =>
    exact ⟨"error initializing seccomp - invalid default action",
      by simp [initSeccomp, hga]⟩
  | ok d =>
    cases hnc : notifyCheck env.apiLevel c.syscalls with
    | some f =>
      match f, hnc with
      | .panicked, hnc =>
        exact absurd hnc (notifyCheck_no_nil_not_panicked env.apiLevel c.syscalls hsome)
      | .err m, hnc =>
        exact ⟨m, by simp [initSeccomp, hga, hnc, Failure.toOutcome]⟩
    | none =>
      rcases h with hw | hd
      · obtain ⟨m, hmm⟩ := notifyCheck_write_notify env.apiLevel c.syscalls hsome hw
        rw [hnc] at hmm
        exact absurd hmm (by simp)
      · have hdA : d = ScmpAction.actNotify := by
          rw [hd] at hga
          simp [getAction] at hga
          exact hga.symm
        subst hdA
        exact ⟨"SCMP_ACT_NOTIFY cannot be used as default action",
          by simp [initSeccomp, hga, hnc]⟩

/-- Witness for C1: a policy with only a write-notify rule is rejected with
an empty operation trace. -/
theorem initSeccomp_rejects_notify_misuse_witness :
    ∃ msg, initSeccomp testEnv
      (some ⟨Action.allow, none, [], [], [some writeNotify]⟩) =
      ⟨[], [], Outcome.err msg⟩ :=
  initSeccomp_rejects_notify_misuse testEnv
    ⟨Action.allow, none, [], [], [some writeNotify]⟩
    (by decide) (Or.inl ⟨writeNotify, by decide, rfl, rfl⟩)

/-!
C6.  Notify requires seccomp API level 6.  The claim as stated fails when the
default action is invalid: the default-action error is returned first and
does not state the API levels (and a nil entry before the notify rule panics,
as for C1).
-/

/-- Counterexample to C6 as stated: a policy with a notify rule on a kernel
reporting API level 0, but with an invalid default action, fails with the
default-action error, not with an error stating the API levels. -/
theorem initSeccomp_invalid_default_masks_api_error :
    initSeccomp testEnvApi0
      (some ⟨Action.other 9, none, [], [], [some notifyGetpid]⟩) =
      ⟨[], [], Outcome.err "error initializing seccomp - invalid default action"⟩ ∧
    "error initializing seccomp - invalid default action" ≠ apiLevelErr 0 :=
  ⟨rfl, by decide⟩

/-- C6 (amended): for every policy whose default action resolves and whose
syscall list holds no nil entry, containing at least one notify rule, if the
reported seccomp API level is below 6 then InitSeccomp fails, before creating
any filter, with the error stating the actual and the required API level. -/
theorem initSeccomp_notify_requires_api6 (env : SeccompEnv) (c : SeccompConfig)
    (d : ScmpAction)
    (hga : getAction c.defaultAction c.defaultErrnoRet = .ok d)
    (hsome : ∀ s ∈ c.syscalls, s ≠ none)
    (hnotify : ∃ sc : Syscall, some sc ∈ c.syscalls ∧ sc.action = Action.notify)
    (hapi : env.apiLevel < 6) :
    initSeccomp env (some c) = ⟨[], [], Outcome.err (apiLevelErr env.apiLevel)⟩ := by
  have hnc := notifyCheck_low_api env.apiLevel hapi c.syscalls hsome hnotify
  simp [initSeccomp, hga, hnc, Failure.toOutcome]

/-- Witness for C6: a valid policy with one notify rule at API level 0. -/
theorem initSeccomp_notify_requires_api6_witness :
    initSeccomp testEnvApi0
      (some ⟨Action.allow, none, [], [], [some notifyGetpid]⟩) =
      ⟨[], [], Outcome.err (apiLevelErr 0)⟩ :=
  initSeccomp_notify_requires_api6 testEnvApi0
    ⟨Action.allow, none, [], [], [some notifyGetpid]⟩ ScmpAction.actAllow
    rfl (by decide) ⟨notifyGetpid, by decide, rfl⟩ (by decide)

/-!
C5.  Binary-tree optimization boundary.  The claim as stated fails because a
policy with at least 33 rules that errors before the optimization step (for
example on an unresolvable architecture) never requests the optimization,
even though a filter was already created.
-/

/-- Counterexample to C5 as stated: a 33-rule policy with a bad architecture
creates the filter, then fails on the architecture, and the optimization is
never requested although the rule count is 33. -/
theorem initSeccomp_opt_skipped_at_33_rules :
    cfg33badArch.syscalls.length = 33 ∧
    initSeccomp testEnv (some cfg33badArch) =
      ⟨[FilterOp.newFilter ScmpAction.actAllow], [],
        Outcome.err "error validating Seccomp architecture: bogusarch"⟩ ∧
    FilterOp.setOptimize 2 ∉ (initSeccomp testEnv (some cfg33badArch)).ops := by
  exact ⟨rfl, rfl, by decide⟩

/-- C5 (amended): the optimization is requested only when the rule count is
at least 33, so for rule counts 0 and 32 it is never requested; whenever
compilation reaches the no-new-privs step the request happens exactly when the
rule count is at least 33; the success of the SetOptimize call influences
neither the operation trace nor the outcome; and when the call fails on a
policy of at least 33 rules that reaches the step, the debug message is
logged. -/
theorem initSeccomp_optimize_boundary (env : SeccompEnv) (c : SeccompConfig) :
    (FilterOp.setOptimize 2 ∈ (initSeccomp env (some c)).ops →
      c.syscalls.length > 32)
    ∧ (FilterOp.setNoNewPrivsBit false ∈ (initSeccomp env (some c)).ops →
        (FilterOp.setOptimize 2 ∈ (initSeccomp env (some c)).ops ↔
          c.syscalls.length > 32))
    ∧ (∀ b : Bool,
        (initSeccomp { env with setOptimizeOk := b } (some c)).ops =
          (initSeccomp env (some c)).ops
        ∧ (initSeccomp { env with setOptimizeOk := b } (some c)).outcome =
          (initSeccomp env (some c)).outcome)
    ∧ (env.setOptimizeOk = false →
        FilterOp.setNoNewPrivsBit false ∈ (initSeccomp env (some c)).ops →
        c.syscalls.length > 32 →
        optUnavailableMsg ∈ (initSeccomp env (some c)).logs) := by
  cases hga : getAction c.defaultAction c.defaultErrnoRet with
  | error e =>
    refine ⟨?_, ?_, ?_, ?_⟩ <;> simp [initSeccomp, hga]
  | ok d =>
    cases hnc : notifyCheck env.apiLevel c.syscalls with
    | some f =>
      refine ⟨?_, ?_, ?_, ?_⟩ <;> simp [initSeccomp, hga, hnc]
    | none =>
      by_cases hdn : d = ScmpAction.actNotify
      · refine ⟨?_, ?_, ?_, ?_⟩ <;> simp [initSeccomp, hga, hnc, hdn]
      · have hbody : initSeccomp env (some c) =
            Phase.toResult (compileBody env c d) := by
          simp [initSeccomp, hga, hnc, hdn]
        have hbody2 : ∀ b : Bool,
            initSeccomp { env with setOptimizeOk := b } (some c) =
              Phase.toResult (compileBody { env with setOptimizeOk := b } c d) := by
          intro b
          simp [initSeccomp, hga, hnc, hdn]
        refine ⟨?_, ?_, ?_, ?_⟩
        · intro h
          rw [hbody, Phase.toResult_ops] at h
          exact compileBody_setOptimize_mem env c d h
        · intro hn
          rw [hbody, Phase.toResult_ops] at hn
          obtain ⟨hf1, hf2, hf3⟩ := compileBody_nnp_prefix_ok env c d hn
          rw [hbody, Phase.toResult_ops]
          constructor
          · intro h
            exact compileBody_setOptimize_mem env c d h
          · intro hlen
            exact compileBody_optimize_mem env c d hf1 hf2 hf3 hlen
        · intro b
          have hc := compileBody_congr_setOptimizeOk env b c d
          rw [hbody, hbody2 b, Phase.toResult_ops, Phase.toResult_ops]
          exact ⟨hc.1, Phase.toResult_outcome_congr hc.2⟩
        · intro hb hn hlen
          rw [hbody, Phase.toResult_ops] at hn
          obtain ⟨hf1, hf2, hf3⟩ := compileBody_nnp_prefix_ok env c d hn
          rw [hbody, Phase.toResult_logs]
          exact compileBody_optimize_log env c d hb hf1 hf2 hf3 hlen

/-- Witness for C5: a well-formed 33-rule policy, compiled in the test
environment, has the optimization request in its trace. -/
theorem initSeccomp_optimize_boundary_witness :
    FilterOp.setOptimize 2 ∈ (initSeccomp testEnv (some cfg33ok)).ops :=
  ((initSeccomp_optimize_boundary testEnv cfg33ok).2.1 (by decide)).mpr (by decide)

/-!
Lemmas about the flag loop, used for C8.
-/

theorem setFlagPhase_fail_none_known (b1 b2 : Bool) (f : String)
    (h : (setFlagPhase b1 b2 f).fail = none) : knownFlag f = true := by
  by_cases h1 : f = flagTsync
  · simp [knownFlag, h1]
  · by_cases h2 : f = linuxSeccompFlagLog
    · simp [knownFlag, h2]
    · by_cases h3 : f = linuxSeccompFlagSpecAllow
      · simp [knownFlag, h3]
      · exfalso
        simp [setFlagPhase, h1, h2, h3] at h

theorem flagsPhase_unknown_fails (b1 b2 : Bool) :
    ∀ l : List String, ∀ f ∈ l, knownFlag f = false →
      (flagsPhase b1 b2 l).fail ≠ none := by
  intro l
  induction l with
  | nil => intro f hf; simp at hf
  | cons g rest ih =>
    intro f hf hk
    cases hsf : (setFlagPhase b1 b2 g).fail with
    | some x =>
      rw [flagsPhase, Phase.seq_fail_some hsf, hsf]
      simp
    | none =>
      rw [flagsPhase, Phase.seq_fail_none hsf]
      show (flagsPhase b1 b2 rest).fail ≠ none
      rcases List.mem_cons.mp hf with hh | hh
      · subst hh
        exact absurd (setFlagPhase_fail_none_known b1 b2 f hsf) (by simp [hk])
      · exact ih f hh hk

theorem flagsPhase_prefix_unknown (b1 b2 : Bool) :
    ∀ fs1 : List String, ∀ f fs2, knownFlag f = false →
      (∀ g ∈ fs1, (setFlagPhase b1 b2 g).fail = none) →
      (flagsPhase b1 b2 (fs1 ++ f :: fs2)).fail =
        some (.err (unknownFlagMsg f)) := by
  intro fs1
  induction fs1 with
  | nil =>
    intro f fs2 hk _
    have h1 : ¬ f = flagTsync := by
      intro h
      simp [knownFlag, h] at hk
    have h2 : ¬ f = linuxSeccompFlagLog := by
      intro h
      simp [knownFlag, h] at hk
    have h3 : ¬ f = linuxSeccompFlagSpecAllow := by
      intro h
      simp [knownFlag, h] at hk
    have hsf : setFlagPhase b1 b2 f = ⟨[], [], some (.err (unknownFlagMsg f))⟩ := by
      simp [setFlagPhase, h1, h2, h3]
    rw [List.nil_append, flagsPhase, hsf, Phase.seq_fail_some rfl]
  | cons g rest ih =>
    intro f fs2 hk hpre
    have hg : (setFlagPhase b1 b2 g).fail = none := hpre g (List.mem_cons_self _ _)
    rw [List.cons_append, flagsPhase, Phase.seq_fail_none hg]
    exact ih f fs2 hk (fun x hx => hpre x (List.mem_cons_of_mem _ hx))

theorem compileBody_fail_of_flags_fail (env : SeccompEnv) (c : SeccompConfig)
    (d : ScmpAction)
    (h : (flagsPhase env.setLogOk env.setSSBOk c.flags).fail ≠ none) :
    (compileBody env c d).fail ≠ none := by
  unfold compileBody
  cases h1 : (newFilterPhase env.newFilterOk d).fail with
  | some x =>
    rw [Phase.seq_fail_some h1, h1]
    simp
  | none =>
    rw [Phase.seq_fail_none h1]
    show (Phase.seq (archPhase env.archFromString env.addArchOk c.architectures) _).fail ≠
      none
    cases h2 : (archPhase env.archFromString env.addArchOk c.architectures).fail with
    | some x =>
      rw [Phase.seq_fail_some h2, h2]
      simp
    | none =>
      rw [Phase.seq_fail_none h2]
      show (Phase.seq (flagsPhase env.setLogOk env.setSSBOk c.flags) _).fail ≠ none
      cases h3 : (flagsPhase env.setLogOk env.setSSBOk c.flags).fail with
      | some x =>
        rw [Phase.seq_fail_some h3, h3]
        simp
      | none => exact absurd h3 h

theorem compileBody_ops_not_rule_of_flags_fail (env : SeccompEnv)
    (c : SeccompConfig) (d : ScmpAction)
    (hfl : (flagsPhase env.setLogOk env.setSSBOk c.flags).fail ≠ none) :
    ∀ op ∈ (compileBody env c d).ops, op.isRuleOp = false := by
  intro op h
  rcases Phase.mem_seq_ops.mp h with h | ⟨-, h⟩
  · rw [newFilterPhase_ops] at h
    simp at h
    subst h
    rfl
  rcases Phase.mem_seq_ops.mp h with h | ⟨-, h⟩
  · obtain ⟨n, hn⟩ := archPhase_ops_shape _ _ _ _ h
    subst hn
    rfl
  rcases Phase.mem_seq_ops.mp h with h | ⟨hf3, h⟩
  · exact FilterOp.flagOp_not_ruleOp (flagsPhase_ops_shape _ _ _ _ h)
  · exact absurd hf3 hfl

theorem compileBody_unknown_flag_outcome (env : SeccompEnv) (c : SeccompConfig)
    (d : ScmpAction) (m : String)
    (hnf : env.newFilterOk = true)
    (harch : (archPhase env.archFromString env.addArchOk c.architectures).fail = none)
    (hfl : (flagsPhase env.setLogOk env.setSSBOk c.flags).fail = some (.err m)) :
    (Phase.toResult (compileBody env c d)).outcome = Outcome.err m := by
  have h1 : (newFilterPhase env.newFilterOk d).fail = none := by
    rw [hnf]
    rfl
  have hfail : (compileBody env c d).fail = some (.err m) := by
    unfold compileBody
    rw [Phase.seq_fail_none h1]
    show (Phase.seq (archPhase env.archFromString env.addArchOk c.architectures) _).fail = _
    rw [Phase.seq_fail_none harch]
    show (Phase.seq (flagsPhase env.setLogOk env.setSSBOk c.flags) _).fail = _
    rw [Phase.seq_fail_some hfl]
    exact hfl
  simp [Phase.toResult, hfail, Failure.toOutcome]

theorem frontPhase_ops_not_rule (env : SeccompEnv) (c : SeccompConfig)
    (d : ScmpAction) :
    ∀ op ∈ (Phase.seq (newFilterPhase env.newFilterOk d)
      (Phase.seq (archPhase env.archFromString env.addArchOk c.architectures)
      (Phase.seq (flagsPhase env.setLogOk env.setSSBOk c.flags)
      (Phase.seq (optimizePhase env.setOptimizeOk c.syscalls.length)
                 (noNewPrivsPhase env.setNoNewPrivsOk))))).ops,
      op.isRuleOp = false := by
  intro op h
  rcases Phase.mem_seq_ops.mp h with h | ⟨-, h⟩
  · rw [newFilterPhase_ops] at h
    simp at h
    subst h
    rfl
  rcases Phase.mem_seq_ops.mp h with h | ⟨-, h⟩
  · obtain ⟨n, hn⟩ := archPhase_ops_shape _ _ _ _ h
    subst hn
    rfl
  rcases Phase.mem_seq_ops.mp h with h | ⟨-, h⟩
  · exact FilterOp.flagOp_not_ruleOp (flagsPhase_ops_shape _ _ _ _ h)
  rcases Phase.mem_seq_ops.mp h with h | ⟨-, h⟩
  · rw [optimizePhase_ops] at h
    by_cases hlen : c.syscalls.length > 32
    · simp [hlen] at h
      subst h
      rfl
    · simp [hlen] at h
  · rw [noNewPrivsPhase_ops] at h
    simp at h
    subst h
    rfl

theorem backPhase_ops_not_flag (sfn : String → Option Nat) (aro : Bool)
    (d : ScmpAction) (l : List (Option Syscall)) (plOk : Bool) :
    ∀ op ∈ (Phase.seq (rulesPhase sfn aro d l) (loadPhase plOk)).ops,
      op.isFlagOp = false := by
  intro op h
  rcases Phase.mem_seq_ops.mp h with h | ⟨-, h⟩
  · exact FilterOp.ruleOp_not_flagOp (rulesPhase_ops_shape _ _ _ _ _ h)
  · rw [loadPhase_ops] at h
    simp at h
    subst h
    rfl

theorem compileBody_split (env : SeccompEnv) (c : SeccompConfig) (d : ScmpAction) :
    compileBody env c d =
      (Phase.seq (newFilterPhase env.newFilterOk d)
      (Phase.seq (archPhase env.archFromString env.addArchOk c.architectures)
      (Phase.seq (flagsPhase env.setLogOk env.setSSBOk c.flags)
      (Phase.seq (optimizePhase env.setOptimizeOk c.syscalls.length)
                 (noNewPrivsPhase env.setNoNewPrivsOk))))).seq
      (Phase.seq (rulesPhase env.syscallFromName env.addRuleOk d c.syscalls)
                 (loadPhase env.patchAndLoadOk)) := by
  unfold compileBody
  simp [Phase.seq_assoc]

/-!
C8.  Flags are applied strictly before any rule; unknown flags are a hard
error.  The claim as stated fails because an earlier failure (for example an
invalid default action) masks the unknown-flag error while the policy still
contains the unrecognized flag.
-/

/-- Counterexample to C8 as stated: a policy with an unrecognized flag and an
invalid default action fails with the default-action error, not with the
unknown-flag error. -/
theorem initSeccomp_bad_default_masks_unknown_flag :
    initSeccomp testEnv (some cfgUnknownFlagBadDefault) =
      ⟨[], [], Outcome.err "error initializing seccomp - invalid default action"⟩ ∧
    "error initializing seccomp - invalid default action" ≠
      unknownFlagMsg "bogus_flag" :=
  ⟨rfl, by decide⟩

/-- C8 (amended): the operation trace always splits into a rule-free prefix
followed by a flag-free suffix (flags are applied strictly before any rule);
a policy with an unrecognized flag never compiles successfully and never has
a rule added; and when the steps before the flag loop succeed and every known
flag before the first unrecognized one applies cleanly, the failure is
precisely the unknown-flag error. -/
theorem initSeccomp_flag_ordering_and_unknown (env : SeccompEnv)
    (c : SeccompConfig) :
    (∃ l1 l2, (initSeccomp env (some c)).ops = l1 ++ l2
      ∧ (∀ op ∈ l1, op.isRuleOp = false)
      ∧ (∀ op ∈ l2, op.isFlagOp = false))
    ∧ (∀ f ∈ c.flags, knownFlag f = false →
        (initSeccomp env (some c)).outcome ≠ Outcome.ok
        ∧ (∀ op ∈ (initSeccomp env (some c)).ops, op.isRuleOp = false))
    ∧ (∀ fs1 f fs2, c.flags = fs1 ++ f :: fs2 → knownFlag f = false →
        (∀ g ∈ fs1, (setFlagPhase env.setLogOk env.setSSBOk g).fail = none) →
        ∀ d, getAction c.defaultAction c.defaultErrnoRet = .ok d →
          notifyCheck env.apiLevel c.syscalls = none →
          d ≠ ScmpAction.actNotify →
          env.newFilterOk = true →
          (archPhase env.archFromString env.addArchOk c.architectures).fail = none →
          (initSeccomp env (some c)).outcome = Outcome.err (unknownFlagMsg f)) := by
  refine ⟨?_, ?_, ?_⟩
  · -- ordering: rule-free prefix, flag-free suffix
    cases hga : getAction c.defaultAction c.defaultErrnoRet with
    | error e => exact ⟨[], [], by simp [initSeccomp, hga], by simp, by simp⟩
    | ok d =>
      cases hnc : notifyCheck env.apiLevel c.syscalls with
      | some f => exact ⟨[], [], by simp [initSeccomp, hga, hnc], by simp, by simp⟩
      | none =>
        by_cases hdn : d = ScmpAction.actNotify
        · exact ⟨[], [], by simp [initSeccomp, hga, hnc, hdn], by simp, by simp⟩
        · have hbody : initSeccomp env (some c) =
              Phase.toResult (compileBody env c d) := by
            simp [initSeccomp, hga, hnc, hdn]
          rw [hbody, Phase.toResult_ops, compileBody_split]
          cases hff : (Phase.seq (newFilterPhase env.newFilterOk d)
            (Phase.seq (archPhase env.archFromString env.addArchOk c.architectures)
            (Phase.seq (flagsPhase env.setLogOk env.setSSBOk c.flags)
            (Phase.seq (optimizePhase env.setOptimizeOk c.syscalls.length)
                       (noNewPrivsPhase env.setNoNewPrivsOk))))).fail with
          | some x =>
            rw [Phase.seq_fail_some hff]
            exact ⟨_, [], by simp, frontPhase_ops_not_rule env c d, by simp⟩
          | none =>
            rw [Phase.seq_fail_none hff]
            exact ⟨_, _, rfl, frontPhase_ops_not_rule env c d,
              backPhase_ops_not_flag _ _ _ _ _⟩
  · -- an unrecognized flag never compiles and never adds a rule
    intro f hf hk
    cases hga : getAction c.defaultAction c.defaultErrnoRet with
    | error e =>
      constructor
      · simp [initSeccomp, hga]
      · simp [initSeccomp, hga]
    | ok d =>
      cases hnc : notifyCheck env.apiLevel c.syscalls with
      | some x =>
        constructor
        · cases x <;> simp [initSeccomp, hga, hnc, Failure.toOutcome]
        · simp [initSeccomp, hga, hnc]
      | none =>
        by_cases hdn : d = ScmpAction.actNotify
        · constructor
          · simp [initSeccomp, hga, hnc, hdn]
          · simp [initSeccomp, hga, hnc, hdn]
        · have hbody : initSeccomp env (some c) =
              Phase.toResult (compileBody env c d) := by
            simp [initSeccomp, hga, hnc, hdn]
          have hfl := flagsPhase_unknown_fails env.setLogOk env.setSSBOk c.flags f hf hk
          constructor
          · rw [hbody]
            intro hok
            exact compileBody_fail_of_flags_fail env c d hfl
              (Phase.toResult_outcome_ok.mp hok)
          · rw [hbody, Phase.toResult_ops]
            exact compileBody_ops_not_rule_of_flags_fail env c d hfl
  · -- the unknown-flag error surfaces when everything before it succeeds
    intro fs1 f fs2 hflags hk hpre d hga hnc hdn hnf harch
    have hbody : initSeccomp env (some c) =
        Phase.toResult (compileBody env c d) := by
      simp [initSeccomp, hga, hnc, hdn]
    have hfl : (flagsPhase env.setLogOk env.setSSBOk c.flags).fail =
        some (.err (unknownFlagMsg f)) := by
      rw [hflags]
      exact flagsPhase_prefix_unknown env.setLogOk env.setSSBOk fs1 f fs2 hk hpre
    rw [hbody]
    exact compileBody_unknown_flag_outcome env c d (unknownFlagMsg f) hnf harch hfl

/-- Witness for C8: a policy with the log flag followed by an unrecognized
flag fails with the unknown-flag error. -/
theorem initSeccomp_flag_ordering_and_unknown_witness :
    (initSeccomp testEnv (some cfgUnknownFlag)).outcome =
      Outcome.err (unknownFlagMsg "bogus_flag") :=
  (initSeccomp_flag_ordering_and_unknown testEnv cfgUnknownFlag).2.2
    [linuxSeccompFlagLog] "bogus_flag" [] rfl (by decide) (by decide)
    ScmpAction.actAllow rfl rfl (by decide) rfl rfl

end Runc
